import Mathlib

/-!
# Epinio: the response writers of `internal/api/v1/response`

A shallow embedding of `response.go` (the functions `OK`, `OKBytes`, `OKYaml`,
`OKReturn`, `Created` and `Error`) over a small model of the gin request
context, followed by the application handlers that use them.

The gin context is reduced to what these functions touch: the request URL, the
response writer (status, header, rendered body, the header entries sent with
the status line), the list `c.Errors`, and the log sink of the request logger.
A render call follows gin's `Render`: a code of zero or below leaves the status
as it is, no body goes out with a status 1xx, 204 or 304, and net/http panics
on a status below 100 or above 999.  The body is kept as the Go value given to
the renderer; serialisation to bytes is left to gin.  A context stands for a
request whose response has not been written yet: a second write on the same
context is not described.
-/

namespace Epinio

/-! ## Errors (`pkg/api/core/v1/errors`) -/

/-- One API error: `Status` is the HTTP code, `Title` the short message,
`Details` the optional diagnostic text (empty when absent). -/
structure APIError where
  Status : Int
  Title : String
  Details : String
  deriving DecidableEq, Repr

/-- The collection type `errors.APIErrors`, an interface whose declaration and
implementations are not among the sources.  `response.Error` uses a collection
through two methods only, so a collection is given here by what these two
methods answer: `Errors()`, the errors it carries, in order, and
`FirstStatus()`, a status code, or `none` when the method panics.  Nothing is
assumed about how the two answers are related. -/
structure APIErrors where
  Errors : List APIError
  FirstStatus : Option Int
  deriving DecidableEq, Repr

/-- The body type `errors.ErrorResponse`: the envelope with its top-level
`Errors` sequence. -/
structure ErrorResponse where
  Errors : List APIError
  deriving DecidableEq, Repr

/-! ## Values handed to the renderers -/

/-- A byte of a raw response body. -/
abbrev Byte := Fin 256

/-- Modelled from the spec: the application record of section 3 (the handlers
and their types are not among the sources).  `route`, `sourceURL`,
`sourceRevision` and `imageReference` are empty until the application is
staged. -/
structure Application where
  name : String
  organization : String
  desiredInstances : Nat
  route : String
  sourceURL : String
  sourceRevision : String
  imageReference : String
  boundServices : List String
  deriving DecidableEq, Repr

/-- The Go values (`interface{}`) that handlers hand to the JSON and YAML
renderers.  `responseOK` is the constant `models.ResponseOK`; `appResponse` is
the upload answer `{message, app}`; `stringsByKey` is a `map[string][]string`,
given by its key/value entries. -/
inductive Value where
  | responseOK
  | errorResponse (r : ErrorResponse)
  | appResponse (message : String) (app : Application)
  | stringsByKey (entries : List (String × List String))
  | strings (xs : List String)
  | text (s : String)
  | number (n : Int)
  | null
  deriving DecidableEq, Repr

/-- What a render call wrote as the body: `c.JSON(code, obj)`,
`c.Data(code, contentType, data)` or `c.YAML(code, obj)`. -/
inductive Rendered where
  | json (obj : Value)
  | data (contentType : String) (bytes : List Byte)
  | yaml (obj : Value)
  deriving DecidableEq, Repr

/-! ## The gin context -/

/-- The Go errors that can sit in `c.Errors`: an `APIError` of this program, or
some other error known by its message. -/
inductive GoError where
  | api (e : APIError)
  | other (msg : String)
  deriving DecidableEq, Repr

/-- The gin error types that matter here. -/
inductive ErrorType where
  | ErrorTypePrivate
  | ErrorTypePublic
  | ErrorTypeBind
  | ErrorTypeRender
  deriving DecidableEq, Repr

/-- An entry of `c.Errors` (`gin.Error`): the wrapped error `Err` and its gin
error type (the field `Type`, a reserved word here, hence `Kind`). -/
structure GinError where
  Err : GoError
  Kind : ErrorType
  deriving DecidableEq, Repr

/-- A value attached to a log line. -/
inductive LogValue where
  | text (s : String)
  | value (v : Value)
  | bytes (b : List Byte)
  | apiErrors (es : APIErrors)
  | apiError (e : APIError)
  deriving DecidableEq, Repr

/-- A line given to the request logger: `logger.V(verbosity).Info(msg, kv...)`
or `logger.Error(err, msg, kv...)`. -/
structure LogEntry where
  err : Option GinError
  verbosity : Nat
  msg : String
  keysAndValues : List (String × LogValue)
  deriving DecidableEq, Repr

/-- The request, as far as the writers read it: `c.Request.URL.String()`. -/
structure Request where
  URL : String
  deriving DecidableEq, Repr

/-- The response writer: gin's status code (`c.Writer.Status()`), the header
entries, the rendered body (`none` while nothing has been rendered), and
`sentHeader`, the header entries that went out with the status line (`none`
while the head of the response has not been written). -/
structure ResponseWriter where
  status : Int
  header : List (String × String)
  body : Option Rendered
  sentHeader : Option (List (String × String))
  deriving DecidableEq, Repr

/-- The gin context `*gin.Context`. -/
structure Context where
  Request : Request
  Writer : ResponseWriter
  Errors : List GinError
  log : List LogEntry
  deriving DecidableEq, Repr

/-- `http.StatusOK`. -/
def StatusOK : Int := 200
/-- `http.StatusCreated`. -/
def StatusCreated : Int := 201
/-- `http.StatusBadRequest`. -/
def StatusBadRequest : Int := 400
/-- `http.StatusNotFound`. -/
def StatusNotFound : Int := 404
/-- `http.StatusInternalServerError`. -/
def StatusInternalServerError : Int := 500

/-- A context on which nothing has been written yet (gin starts a response
with status 200). -/
def Context.fresh (url : String) : Context :=
  { Request := { URL := url }
    Writer := { status := StatusOK, header := [], body := none, sentHeader := none }
    Errors := []
    log := [] }

/-- `logger.V(v).Info(msg, kv...)` on the request logger. -/
def Context.logInfo (c : Context) (v : Nat) (msg : String)
    (kv : List (String × LogValue)) : Context :=
  { c with log := c.log ++ [{ err := none, verbosity := v, msg := msg, keysAndValues := kv }] }

/-- `logger.Error(err, msg, kv...)` on the request logger. -/
def Context.logError (c : Context) (err : GinError) (msg : String)
    (kv : List (String × LogValue)) : Context :=
  { c with log := c.log ++ [{ err := some err, verbosity := 0, msg := msg, keysAndValues := kv }] }

/-- `c.Error(err)`: wraps the error as a private gin error, appends it to
`c.Errors` and returns the entry (never nil for a non-nil error). -/
def Context.Error (c : Context) (err : APIError) : Context × Option GinError :=
  let parsedError : GinError := { Err := GoError.api err, Kind := ErrorType.ErrorTypePrivate }
  ({ c with Errors := c.Errors ++ [parsedError] }, some parsedError)

/-- `goerrs.As(err, ginErr)` for an `APIError` and a `*gin.Error` target: an
`APIError` is not a `gin.Error` and wraps nothing, so the answer is false. -/
def goerrsAs (_err : APIError) (_ginErr : GinError) : Bool := false

/-- `c.Header(key, value)`: deletes the key when the value is empty, sets it
(replacing earlier values) otherwise. -/
def Context.Header (c : Context) (key value : String) : Context :=
  let others := c.Writer.header.filter (fun kv => kv.1 != key)
  if value == "" then
    { c with Writer := { c.Writer with header := others } }
  else
    { c with Writer := { c.Writer with header := others ++ [(key, value)] } }

/-- `c.Writer.Header().Get(key)`. -/
def ResponseWriter.get (w : ResponseWriter) (key : String) : Option String :=
  (w.header.find? (fun kv => kv.1 == key)).map (fun kv => kv.2)

/-- The value of a key among header entries. -/
def headerValue (header : List (String × String)) (key : String) : Option String :=
  (header.find? (fun kv => kv.1 == key)).map (fun kv => kv.2)

/-- How a call ended: it returned, or it panicked; either way with the context
as the call left it. -/
inductive Outcome where
  | returned (c : Context)
  | panicked (c : Context)
  deriving DecidableEq, Repr

/-- The context a call left behind. -/
def Outcome.context : Outcome → Context
  | Outcome.returned c => c
  | Outcome.panicked c => c

/-- The context of a call that returned. -/
def Outcome.result : Outcome → Option Context
  | Outcome.returned c => some c
  | Outcome.panicked _ => none

/-- gin's `bodyAllowedForStatus`: no body goes out with a status 1xx, 204 or
304. -/
def bodyAllowedForStatus (status : Int) : Bool :=
  if 100 ≤ status ∧ status ≤ 199 then false
  else if status = 204 then false
  else if status = 304 then false
  else true

/-- net/http's `checkWriteHeaderCode`, as a test: a code below 100 or above 999
does not pass (`WriteHeader` panics on it). -/
def checkWriteHeaderCode (code : Int) : Bool :=
  if code < 100 ∨ code > 999 then false else true

/-- `c.Status(code)`, gin's `WriteHeader`: a code of zero or below is ignored,
any other code becomes the status of the response. -/
def Context.Status (c : Context) (code : Int) : Context :=
  if code > 0 then { c with Writer := { c.Writer with status := code } } else c

/-- `c.Writer.WriteHeaderNow()` on a response whose head has not been written:
gives gin's status to net/http's `WriteHeader`, which panics (`none`) on a code
that does not pass `checkWriteHeaderCode`, and sends the status line with the
header entries as they are at this moment. -/
def Context.WriteHeaderNow (c : Context) : Option Context :=
  if checkWriteHeaderCode c.Writer.status then
    some { c with Writer := { c.Writer with sentHeader := some c.Writer.header } }
  else none

/-- `c.Render(code, r)`: sets the status; when the code allows no body, writes
the head of the response and nothing else; otherwise renders the body, the
first write sending the head of the response.  The `Content-Type` entry that a
renderer adds is kept with the rendered body, not among the header entries. -/
def Context.Render (c : Context) (code : Int) (r : Rendered) : Outcome :=
  let c := c.Status code
  if !bodyAllowedForStatus code then
    match c.WriteHeaderNow with
    | some written => Outcome.returned written
    | none => Outcome.panicked c
  else
    match c.WriteHeaderNow with
    | some written =>
      Outcome.returned { written with Writer := { written.Writer with body := some r } }
    | none => Outcome.panicked c

/-- `c.JSON(code, obj)`. -/
def Context.JSON (c : Context) (code : Int) (obj : Value) : Outcome :=
  c.Render code (Rendered.json obj)

/-- `c.YAML(code, obj)`. -/
def Context.YAML (c : Context) (code : Int) (obj : Value) : Outcome :=
  c.Render code (Rendered.yaml obj)

/-- `c.Data(code, contentType, data)`. -/
def Context.Data (c : Context) (code : Int) (contentType : String) (data : List Byte) :
    Outcome :=
  c.Render code (Rendered.data contentType data)

/-! ## `response.go` -/

/-- `OK` reports a generic success.  (The status 200 passes the check of
net/http, so the render call returns; the same holds for `OKBytes`, `OKYaml`,
`OKReturn` and `Created`.) -/
def OK (c : Context) : Context :=
  let c := c.logInfo 2 "OK"
    [("origin", LogValue.text c.Request.URL), ("returning", LogValue.value Value.responseOK)]
  (c.JSON StatusOK Value.responseOK).context

/-- `OKBytes` reports a success with some data. -/
def OKBytes (c : Context) (response : List Byte) : Context :=
  let c := c.logInfo 2 "OK"
    [("origin", LogValue.text c.Request.URL), ("returning", LogValue.bytes response)]
  (c.Data StatusOK "application/octet-stream" response).context

/-- `OKYaml` reports a success with some YAML data. -/
def OKYaml (c : Context) (response : Value) : Context :=
  let c := c.logInfo 0 "OK"
    [("origin", LogValue.text c.Request.URL), ("returning", LogValue.value response)]
  (c.YAML StatusOK response).context

/-- `OKReturn` reports a success with some data. -/
def OKReturn (c : Context) (response : Value) : Context :=
  let c := c.logInfo 2 "OK"
    [("origin", LogValue.text c.Request.URL), ("returning", LogValue.value response)]
  (c.JSON StatusOK response).context

/-- `Created` reports successful creation of a resource. -/
def Created (c : Context) : Context :=
  let c := c.logInfo 2 "CREATED"
    [("origin", LogValue.text c.Request.URL), ("returning", LogValue.value Value.responseOK)]
  (c.JSON StatusCreated Value.responseOK).context

/-- One turn of the loop of `Error`: add the error to the gin context, and log
when the entry that comes back matches the error. -/
def Error.addError (c : Context) (err : APIError) : Context :=
  match c.Error err with
  | (c, some ginErr) =>
    if goerrsAs err ginErr then
      c.logError ginErr "error adding responseError to Gin context"
        [("origin", LogValue.text c.Request.URL), ("error", LogValue.apiError err)]
    else c
  | (c, none) => c

/-- `Error` reports the specified errors. -/
def Error (c : Context) (responseErrors : APIErrors) : Outcome :=
  let c := c.logInfo 2 "ERROR"
    [("origin", LogValue.text c.Request.URL), ("errors", LogValue.apiErrors responseErrors)]
  -- add errors to the Gin context
  let c := responseErrors.Errors.foldl Error.addError c
  let c := c.Header "X-Content-Type-Options" "nosniff"
  match responseErrors.FirstStatus with
  | none => Outcome.panicked c
  | some status =>
    c.JSON status (Value.errorResponse { Errors := responseErrors.Errors })

/-! ## Instance counts given as text (spec 4.1, 4.3, 9) -/

/-- Modelled from the spec: the value of a decimal digit character (part of
the base-10 reading of the instances text). -/
def digitValue (c : Char) : Option Nat :=
  if c.isDigit then some (c.toNat - 48) else none

/-- Modelled from the spec: reads decimal digits from left to right on top of
the value read so far; fails at the first character that is not a digit. -/
def parseDigitsFrom (acc : Nat) : List Char → Option Nat
  | [] => some acc
  | c :: cs =>
    match digitValue c with
    | none => none
    | some d => parseDigitsFrom (acc * 10 + d) cs

/-- Modelled from the spec: reads a non-empty run of decimal digits. -/
def parseDigits (cs : List Char) : Option Nat :=
  match cs with
  | [] => none
  | _ :: _ => parseDigitsFrom 0 cs

/-- Modelled from the spec: the text-to-integer step of the instances pipeline
("parsed as a base-10 integer with no fractional part"), with the syntax of
Go's `strconv.Atoi`: an optional sign followed by at least one decimal digit
and nothing else.  The spec gives no machine range, so the result is an
unbounded integer. -/
def parseInt (s : String) : Option Int :=
  match s.toList with
  | '-' :: ds => (parseDigits ds).map (fun (n : Nat) => -(Int.ofNat n))
  | '+' :: ds => (parseDigits ds).map Int.ofNat
  | ds => (parseDigits ds).map Int.ofNat

/-- The spec's reading of "a base-10 integer" as a shape of text, stated
without the parser: an optional sign, then one or more characters, all of them
decimal digits. -/
def isDecimalInteger (s : String) : Bool :=
  let digits :=
    match s.toList with
    | '-' :: ds => ds
    | '+' :: ds => ds
    | ds => ds
  !digits.isEmpty && digits.all Char.isDigit

/-- Modelled from the spec: the tagged result of the parse-then-validate
pipeline of section 9, `Ok(n)` / `FormatError` / `RangeError`. -/
inductive InstancesResult where
  | Ok (n : Nat)
  | FormatError
  | RangeError
  deriving DecidableEq, Repr

/-- Modelled from the spec: the parse-then-validate pipeline for an instances
text (sections 4.1 and 4.3): text that is not an integer is a format error, a
negative integer is a range error, anything else is the count. -/
def parseInstances (s : String) : InstancesResult :=
  match parseInt s with
  | none => InstancesResult.FormatError
  | some i => if i < 0 then InstancesResult.RangeError else InstancesResult.Ok i.toNat

/-- Modelled from the spec: the platform-defined minimum used when the
instances field of an upload is absent (section 4.1). -/
def DefaultInstances : Nat := 1

/-! ## The errors of the handlers (spec 7) -/

/-- Modelled from the spec: `InvalidInstancesFormat`, status 400 with the
title fixed by section 4.3. -/
def InvalidInstancesFormat : APIError :=
  { Status := StatusBadRequest
    Title := "instances param should be an integer"
    Details := "" }

/-- Modelled from the spec: `InvalidInstancesRange`, status 400 with the title
fixed by section 4.3. -/
def InvalidInstancesRange : APIError :=
  { Status := StatusBadRequest
    Title := "instances param should be integer equal or greater than zero"
    Details := "" }

/-- Modelled from the spec: `UnpackError`, status 500; `Details` is the
extraction error wrapped under the text "failed to unpack" (sections 4.1
and 7).  The spec does not fix the title. -/
def UnpackError (cause : String) : APIError :=
  { Status := StatusInternalServerError
    Title := "Internal Server Error"
    Details := "failed to unpack: " ++ cause }

/-- Modelled from the spec: `NotFound` for a missing organization or
application, status 404 (section 7).  The spec does not fix the title; it names
what is missing. -/
def NotFound (what name : String) : APIError :=
  { Status := StatusNotFound
    Title := what ++ " not found"
    Details := name }

/-- Modelled from the spec: a single `APIError` used as a collection (the
declaration is not among the sources): `Errors()` answers the one-element
sequence of the error itself and `FirstStatus()` its `Status`, the status the
spec gives the failure. -/
def APIError.asErrors (e : APIError) : APIErrors :=
  { Errors := [e], FirstStatus := some e.Status }

/-! ## The application registry and its handlers (spec 4) -/

/-- Modelled from the spec: the state the handlers work on, the known
organizations and the application records in creation order. -/
structure Registry where
  organizations : List String
  applications : List Application
  deriving DecidableEq, Repr

/-- Modelled from the spec: the record of `(organization, name)`, if there is
one; the pair identifies an application (section 3). -/
def Registry.lookup (reg : Registry) (org name : String) : Option Application :=
  reg.applications.find? (fun a => a.organization == org && a.name == name)

/-- Modelled from the spec: sets the desired instance count of
`(organization, name)`. -/
def Registry.setInstances (reg : Registry) (org name : String) (n : Nat) : Registry :=
  { reg with
    applications := reg.applications.map (fun a =>
      if a.organization == org && a.name == name then { a with desiredInstances := n } else a) }

/-- Modelled from the spec: removes the record of `(organization, name)`. -/
def Registry.remove (reg : Registry) (org name : String) : Registry :=
  { reg with
    applications := reg.applications.filter (fun a =>
      !(a.organization == org && a.name == name)) }

/-- Modelled from the spec: creates the record of `(organization, name)` with
the given count when it is absent, and updates its count otherwise; answers the new registry and the
record as it now stands. -/
def Registry.createOrUpdate (reg : Registry) (org name : String) (n : Nat) :
    Registry × Application :=
  match reg.lookup org name with
  | some app => (reg.setInstances org name n, { app with desiredInstances := n })
  | none =>
    let app : Application :=
      { name := name, organization := org, desiredInstances := n, route := "",
        sourceURL := "", sourceRevision := "", imageReference := "",
        boundServices := [] }
    ({ reg with applications := reg.applications ++ [app] }, app)

/-- Modelled from the spec: the instances field of an upload (section 4.1):
the default when the field is absent, the pipeline otherwise. -/
def requestedInstances (field : Option String) : InstancesResult :=
  match field with
  | none => InstancesResult.Ok DefaultInstances
  | some s => parseInstances s

/-- Modelled from the spec: the upload handler (sections 4.1, 4.5, 6, 7); the
handler itself is not among the sources, only its acceptance tests are.  The
instances field is validated first ("validation errors are detected
synchronously and returned immediately without touching any external system"),
then the archive is unpacked by the external unpacker `unpack`, which answers
with the content reference or with the extraction error.  A failure is written
with `response.Error` and leaves the registry as it was; a success creates or
updates the record and answers `{message, app}`. -/
def Upload (unpack : List Byte → Except String String) (reg : Registry) (c : Context)
    (org name : String) (archive : List Byte) (instances : Option String) :
    Registry × Context :=
  match requestedInstances instances with
  | InstancesResult.FormatError => (reg, (Error c InvalidInstancesFormat.asErrors).context)
  | InstancesResult.RangeError => (reg, (Error c InvalidInstancesRange.asErrors).context)
  | InstancesResult.Ok n =>
    match unpack archive with
    | Except.error cause => (reg, (Error c (UnpackError cause).asErrors).context)
    | Except.ok _ =>
      let (reg, app) := reg.createOrUpdate org name n
      (reg, OKReturn c (Value.appResponse "ok" app))

/-- Modelled from the spec: the handler of `PATCH /orgs/{org}/applications/{app}`
(sections 4.3, 4.5, 6, 7); the handler itself is not among the sources.  The
instances text is validated first (section 7, as for the upload), then the
organization and the application are resolved, then the count is stored and
the answer is the generic `OK`. -/
def UpdateInstances (reg : Registry) (c : Context) (org name instances : String) :
    Registry × Context :=
  match parseInstances instances with
  | InstancesResult.FormatError => (reg, (Error c InvalidInstancesFormat.asErrors).context)
  | InstancesResult.RangeError => (reg, (Error c InvalidInstancesRange.asErrors).context)
  | InstancesResult.Ok n =>
    if !reg.organizations.contains org then
      (reg, (Error c (NotFound "organization" org).asErrors).context)
    else
      match reg.lookup org name with
      | none => (reg, (Error c (NotFound "application" name).asErrors).context)
      | some _ => (reg.setInstances org name n, OK c)

/-- Modelled from the spec: `UnbindAll` of the service binding manager
(section 4.4): every bound service is detached through the external
`detach org app service` (true when the detachment succeeded), one failure
does not stop the others, and the names of the services detached are
collected in order. -/
def UnbindAll (detach : String → String → String → Bool) (app : Application) :
    List String :=
  app.boundServices.filter (fun service => detach app.organization app.name service)

/-- Modelled from the spec: the handler of
`DELETE /orgs/{org}/applications/{app}` (sections 4.5, 6, 7); the handler
itself is not among the sources.  The fixed sequence: resolve the application
(`NotFound` when the organization or the application is missing), unbind all
its services, remove the record, and answer 200 with the unbound names under
the single key `UnboundServices`. -/
def Delete (detach : String → String → String → Bool) (reg : Registry) (c : Context)
    (org name : String) : Registry × Context :=
  if !reg.organizations.contains org then
    (reg, (Error c (NotFound "organization" org).asErrors).context)
  else
    match reg.lookup org name with
    | none => (reg, (Error c (NotFound "application" name).asErrors).context)
    | some app =>
      let unboundNames := UnbindAll detach app
      (reg.remove org name,
        OKReturn c (Value.stringsByKey [("UnboundServices", unboundNames)]))

/-- The keys of a JSON body that is a map of string lists; `none` for any
other body. -/
def Rendered.objectKeys : Rendered → Option (List String)
  | Rendered.json (Value.stringsByKey entries) => some (entries.map (fun kv => kv.1))
  | _ => none

/-- The value under a key of a JSON body that is a map of string lists. -/
def Rendered.stringsAt (key : String) : Rendered → Option (List String)
  | Rendered.json (Value.stringsByKey entries) =>
    (entries.find? (fun kv => kv.1 == key)).map (fun kv => kv.2)
  | _ => none

/-- The `Errors` sequence of a JSON body that is an error envelope. -/
def Rendered.envelopeErrors : Rendered → Option (List APIError)
  | Rendered.json (Value.errorResponse r) => some r.Errors
  | _ => none

/-- Go's `strings.Contains(s, substr)`. -/
def stringsContains (s substr : String) : Prop :=
  substr.toList <:+: s.toList

/-- The response on `c` is a failure with the given HTTP status whose first
error carries that status and the given title. -/
def FailsWith (c : Context) (status : Int) (title : String) : Prop :=
  c.Writer.status = status ∧
  ∃ first, (c.Writer.body.bind Rendered.envelopeErrors).bind List.head? = some first ∧
    first.Status = status ∧ first.Title = title


/-! ## Lemmas on the context operations -/

/-- A log line leaves the response writer alone. -/
theorem Context.logInfo_Writer (c : Context) (v : Nat) (msg : String)
    (kv : List (String × LogValue)) : (c.logInfo v msg kv).Writer = c.Writer := rfl

/-- A log line leaves `c.Errors` alone. -/
theorem Context.logInfo_Errors (c : Context) (v : Nat) (msg : String)
    (kv : List (String × LogValue)) : (c.logInfo v msg kv).Errors = c.Errors := rfl

/-- Setting the status leaves the header entries alone. -/
theorem Context.Status_header (c : Context) (code : Int) :
    (c.Status code).Writer.header = c.Writer.header := by
  unfold Context.Status
  split <;> rfl

/-- Setting the status leaves the rendered body alone. -/
theorem Context.Status_body (c : Context) (code : Int) :
    (c.Status code).Writer.body = c.Writer.body := by
  unfold Context.Status
  split <;> rfl

/-- Setting the status leaves `c.Errors` alone. -/
theorem Context.Status_Errors (c : Context) (code : Int) :
    (c.Status code).Errors = c.Errors := by
  unfold Context.Status
  split <;> rfl

/-- The status after `c.Status(code)`: the code when it is positive, the
status as it was otherwise. -/
theorem Context.Status_status (c : Context) (code : Int) :
    (c.Status code).Writer.status = if code > 0 then code else c.Writer.status := by
  unfold Context.Status
  split <;> rfl

/-- A code from 100 to 999 passes the check of net/http. -/
theorem checkWriteHeaderCode_of_valid (code : Int) (hlow : 100 ≤ code) (hhigh : code ≤ 999) :
    checkWriteHeaderCode code = true := by
  unfold checkWriteHeaderCode
  rw [if_neg]
  omega

/-- The two ways a render call ends: it returns when the status that results
passes the check of net/http, having sent the head of the response and, when
the code allows one, the body; it panics otherwise. -/
theorem Context.Render_eq (c : Context) (code : Int) (r : Rendered) :
    c.Render code r =
      if checkWriteHeaderCode (c.Status code).Writer.status = true then
        Outcome.returned
          { c.Status code with
            Writer :=
              { (c.Status code).Writer with
                body := if bodyAllowedForStatus code = true then some r
                  else (c.Status code).Writer.body
                sentHeader := some (c.Status code).Writer.header } }
      else Outcome.panicked (c.Status code) := by
  unfold Context.Render Context.WriteHeaderNow
  by_cases hcheck : checkWriteHeaderCode (c.Status code).Writer.status = true
  · by_cases hbody : bodyAllowedForStatus code = true
    · simp [hcheck, hbody]
    · simp [hcheck, hbody]
  · by_cases hbody : bodyAllowedForStatus code = true
    · simp [hcheck, hbody]
    · simp [hcheck, hbody]

/-- What a render call that returned has written. -/
theorem Context.Render_returned (c c' : Context) (code : Int) (r : Rendered)
    (h : c.Render code r = Outcome.returned c') :
    c'.Errors = c.Errors ∧
    c'.Writer.sentHeader = some c.Writer.header ∧
    c'.Writer.status = (if code > 0 then code else c.Writer.status) ∧
    (bodyAllowedForStatus code = true → c'.Writer.body = some r) ∧
    (bodyAllowedForStatus code = false → c'.Writer.body = c.Writer.body) := by
  rw [Context.Render_eq] at h
  by_cases hcheck : checkWriteHeaderCode (c.Status code).Writer.status = true
  · rw [if_pos hcheck] at h
    injection h with h
    subst h
    refine ⟨Context.Status_Errors c code, ?_, Context.Status_status c code, ?_, ?_⟩
    · show some (c.Status code).Writer.header = some c.Writer.header
      rw [Context.Status_header]
    · intro hbody
      show (if bodyAllowedForStatus code = true then some r
        else (c.Status code).Writer.body) = some r
      rw [if_pos hbody]
    · intro hbody
      show (if bodyAllowedForStatus code = true then some r
        else (c.Status code).Writer.body) = c.Writer.body
      rw [if_neg (by simp [hbody]), Context.Status_body]
  · rw [if_neg hcheck] at h
    cases h

/-- A render call with a code from 100 to 999 returns. -/
theorem Context.Render_returns (c : Context) (code : Int) (r : Rendered)
    (hlow : 100 ≤ code) (hhigh : code ≤ 999) :
    ∃ c', c.Render code r = Outcome.returned c' := by
  rw [Context.Render_eq]
  have hstatus : (c.Status code).Writer.status = code := by
    rw [Context.Status_status, if_pos (by omega)]
  rw [hstatus, if_pos (checkWriteHeaderCode_of_valid code hlow hhigh)]
  exact ⟨_, rfl⟩

/-- A render call leaves the header entries alone, however it ends. -/
theorem Context.Render_context_header (c : Context) (code : Int) (r : Rendered) :
    (c.Render code r).context.Writer.header = c.Writer.header := by
  rw [Context.Render_eq]
  split
  · exact Context.Status_header c code
  · exact Context.Status_header c code

/-- A render call leaves `c.Errors` alone, however it ends. -/
theorem Context.Render_context_Errors (c : Context) (code : Int) (r : Rendered) :
    (c.Render code r).context.Errors = c.Errors := by
  rw [Context.Render_eq]
  split
  · exact Context.Status_Errors c code
  · exact Context.Status_Errors c code

/-- After the entries of a key are dropped and one is appended, the key is
found with the appended value. -/
theorem find_key_after_filter (key value : String) (hs : List (String × String)) :
    ((hs.filter (fun kv => kv.1 != key) ++ [(key, value)]).find?
      (fun kv => kv.1 == key)) = some (key, value) := by
  induction hs with
  | nil => simp
  | cons h t ih =>
    by_cases hk : h.1 = key
    · simp [List.filter_cons, hk]
    · simp [List.filter_cons, hk]

/-- A header set to a non-empty value is read back. -/
theorem Context.Header_get (c : Context) (key value : String) (hv : value ≠ "") :
    (c.Header key value).Writer.get key = some value := by
  simp [Context.Header, ResponseWriter.get, hv, find_key_after_filter]

/-- A header set to a non-empty value is among the header entries. -/
theorem Context.Header_headerValue (c : Context) (key value : String) (hv : value ≠ "") :
    headerValue (c.Header key value).Writer.header key = some value := by
  simp [Context.Header, headerValue, hv, find_key_after_filter]

/-- The two ways `Error` goes on after the loop and the header, by the answer
of `FirstStatus()`. -/
theorem Error_eq (c : Context) (responseErrors : APIErrors) :
    Error c responseErrors =
      match responseErrors.FirstStatus with
      | none => Outcome.panicked
          (((responseErrors.Errors.foldl Error.addError
            (c.logInfo 2 "ERROR" [("origin", LogValue.text c.Request.URL),
              ("errors", LogValue.apiErrors responseErrors)])).Header
            "X-Content-Type-Options" "nosniff"))
      | some status =>
          (((responseErrors.Errors.foldl Error.addError
            (c.logInfo 2 "ERROR" [("origin", LogValue.text c.Request.URL),
              ("errors", LogValue.apiErrors responseErrors)])).Header
            "X-Content-Type-Options" "nosniff").Render status
              (Rendered.json (Value.errorResponse { Errors := responseErrors.Errors }))) := rfl

/-- What `Error` has written when it returned: `FirstStatus()` answered a
status, the head of the response went out with the header `nosniff` set, and
the body, when the status allows one, is the envelope of the collection. -/
theorem Error_returned (c c' : Context) (responseErrors : APIErrors)
    (h : Error c responseErrors = Outcome.returned c') :
    ∃ status, responseErrors.FirstStatus = some status ∧
      (∃ sent, c'.Writer.sentHeader = some sent ∧
        headerValue sent "X-Content-Type-Options" = some "nosniff") ∧
      (0 < status → c'.Writer.status = status) ∧
      (bodyAllowedForStatus status = true → c'.Writer.body =
        some (Rendered.json (Value.errorResponse { Errors := responseErrors.Errors }))) := by
  rw [Error_eq] at h
  cases hfs : responseErrors.FirstStatus with
  | none => rw [hfs] at h; cases h
  | some status =>
    rw [hfs] at h
    obtain ⟨_, hsent, hstatus, hbody, _⟩ := Context.Render_returned _ _ _ _ h
    refine ⟨status, rfl, ⟨_, hsent, ?_⟩, ?_, hbody⟩
    · exact Context.Header_headerValue _ "X-Content-Type-Options" "nosniff" (by decide)
    · intro hpos
      rw [hstatus, if_pos hpos]

/-- `Error` returns when `FirstStatus()` answers a code from 100 to 999. -/
theorem Error_returns (c : Context) (responseErrors : APIErrors) (status : Int)
    (hfs : responseErrors.FirstStatus = some status)
    (hlow : 100 ≤ status) (hhigh : status ≤ 999) :
    ∃ c', Error c responseErrors = Outcome.returned c' := by
  rw [Error_eq, hfs]
  exact Context.Render_returns _ status _ hlow hhigh

/-! ## The error writer -/

/-- C1, as stated, fails: for the collection of the one error with `Status` 0,
whose `FirstStatus()` answers that 0, `Error` writes a response with status
200, the status gin had before the call, because gin ignores a status code of
zero or below. -/
theorem Error_status_is_first_status_counterexample :
    (Error (Context.fresh "/api/v1/orgs/o1/applications/a1")
      { Errors := [{ Status := 0, Title := "unknown", Details := "" }],
        FirstStatus := some 0 }).result.map (fun c => c.Writer.status) = some 200 := by
  decide

/-- C1, amended: for a non-empty error collection whose `FirstStatus()` answers
the `Status` of its first error, a code from 100 to 999, `Error` returns and
the status code it writes is that `Status`, whatever the later errors are;
when the status allows a body, the first entry of `Errors` in the body is that
first error. -/
theorem Error_status_is_first_status (c : Context) (responseErrors : APIErrors)
    (first : APIError) (rest : List APIError)
    (h : responseErrors.Errors = first :: rest)
    (hfirst : responseErrors.FirstStatus = some first.Status)
    (hlow : 100 ≤ first.Status) (hhigh : first.Status ≤ 999) :
    ∃ c', Error c responseErrors = Outcome.returned c' ∧
      c'.Writer.status = first.Status ∧
      (bodyAllowedForStatus first.Status = true →
        (c'.Writer.body.bind Rendered.envelopeErrors).bind List.head? = some first) := by
  obtain ⟨c', hc'⟩ := Error_returns c responseErrors first.Status hfirst hlow hhigh
  obtain ⟨status, hfs, _, hstatus, hbody⟩ := Error_returned c c' responseErrors hc'
  rw [hfirst] at hfs
  injection hfs with hfs
  subst hfs
  refine ⟨c', hc', hstatus (by omega), ?_⟩
  intro hallowed
  rw [hbody hallowed]
  simp [Rendered.envelopeErrors, h]

/-- C1, amended, at a collection of two errors with statuses 400 and 404. -/
theorem Error_status_is_first_status_witness :
    ∃ c', Error (Context.fresh "/api/v1/orgs/o1/applications/a1")
        { Errors := [InvalidInstancesRange, NotFound "application" "a1"],
          FirstStatus := some InvalidInstancesRange.Status } =
          Outcome.returned c' ∧
      c'.Writer.status = InvalidInstancesRange.Status ∧
      (bodyAllowedForStatus InvalidInstancesRange.Status = true →
        (c'.Writer.body.bind Rendered.envelopeErrors).bind List.head? =
          some InvalidInstancesRange) :=
  Error_status_is_first_status (Context.fresh "/api/v1/orgs/o1/applications/a1")
    { Errors := [InvalidInstancesRange, NotFound "application" "a1"],
      FirstStatus := some InvalidInstancesRange.Status }
    InvalidInstancesRange [NotFound "application" "a1"] rfl rfl (by decide) (by decide)

/-- C2: for every error collection, a response that `Error` writes went out
with the header `X-Content-Type-Options: nosniff` among the header entries
sent with its status line; `Error` writes a response whenever `FirstStatus()`
answers a code from 100 to 999; and however the call ends, the header entries
of the context hold `nosniff` under that key afterwards. -/
theorem Error_sets_nosniff (c : Context) (responseErrors : APIErrors) :
    (∀ c', Error c responseErrors = Outcome.returned c' →
      ∃ sent, c'.Writer.sentHeader = some sent ∧
        headerValue sent "X-Content-Type-Options" = some "nosniff") ∧
    (∀ status, responseErrors.FirstStatus = some status → 100 ≤ status → status ≤ 999 →
      ∃ c', Error c responseErrors = Outcome.returned c') ∧
    headerValue (Error c responseErrors).context.Writer.header "X-Content-Type-Options" =
      some "nosniff" := by
  refine ⟨?_, ?_, ?_⟩
  · intro c' hc'
    obtain ⟨_, _, hsent, _, _⟩ := Error_returned c c' responseErrors hc'
    exact hsent
  · intro status hfs hlow hhigh
    exact Error_returns c responseErrors status hfs hlow hhigh
  · rw [Error_eq]
    cases responseErrors.FirstStatus with
    | none =>
      exact Context.Header_headerValue _ "X-Content-Type-Options" "nosniff" (by decide)
    | some status =>
      simp only [Context.Render_context_header]
      exact Context.Header_headerValue _ "X-Content-Type-Options" "nosniff" (by decide)

/-- C3, as stated, fails: for the collection of the one error with `Status`
304, whose `FirstStatus()` answers that 304, `Error` returns having written a response without any body, because gin
sends no body with a status 1xx, 204 or 304. -/
theorem Error_body_is_envelope_counterexample :
    (Error (Context.fresh "/api/v1/orgs/o1/applications/a1")
      { Errors := [{ Status := 304, Title := "Not Modified", Details := "" }],
        FirstStatus := some 304 }).result.map
          (fun c => (c.Writer.status, c.Writer.body)) = some (304, none) := by
  decide

/-- C3, amended: when `FirstStatus()` answers a status that allows a body (not
1xx, 204 or 304), the body of a response that `Error` writes is the envelope
whose `Errors` sequence is exactly the sequence of errors of the collection
(same elements, same order, same length); `Error` writes the response
whenever that status is a code from 100 to 999. -/
theorem Error_body_is_envelope (c : Context) (responseErrors : APIErrors) (status : Int)
    (hstatus : responseErrors.FirstStatus = some status)
    (hallowed : bodyAllowedForStatus status = true) :
    (∀ c', Error c responseErrors = Outcome.returned c' →
      c'.Writer.body =
        some (Rendered.json (Value.errorResponse { Errors := responseErrors.Errors })) ∧
      c'.Writer.body.bind Rendered.envelopeErrors = some responseErrors.Errors) ∧
    (100 ≤ status → status ≤ 999 →
      ∃ c', Error c responseErrors = Outcome.returned c') := by
  constructor
  · intro c' hc'
    obtain ⟨status', hfs, _, _, hbody⟩ := Error_returned c c' responseErrors hc'
    rw [hstatus] at hfs
    injection hfs with hfs
    subst hfs
    rw [hbody hallowed]
    exact ⟨rfl, rfl⟩
  · intro hlow hhigh
    exact Error_returns c responseErrors status hstatus hlow hhigh

/-- C4, as stated, fails: `Error` accepts the collection of the one error with
`Status` 204, whose `FirstStatus()` answers that 204 (it returns, having
written a response), and the response has no body, hence no `Errors` sequence
with an entry in it. -/
theorem Error_body_errors_nonempty_counterexample :
    (Error (Context.fresh "/api/v1/orgs/o1/applications/a1")
      { Errors := [{ Status := 204, Title := "No Content", Details := "" }],
        FirstStatus := some 204 }).result.isSome = true ∧
    (Error (Context.fresh "/api/v1/orgs/o1/applications/a1")
      { Errors := [{ Status := 204, Title := "No Content", Details := "" }],
        FirstStatus := some 204 }).context.Writer.body.bind
          Rendered.envelopeErrors = none := by
  decide

/-- C4, amended: when `FirstStatus()` answers a status that allows a body (not
1xx, 204 or 304), the `Errors` sequence of the body of a response that `Error`
writes is non-empty exactly when the collection holds at least one error; for
a collection with at least one error and a status from 100 to 999, `Error`
writes such a response. -/
theorem Error_body_errors_nonempty (c : Context) (responseErrors : APIErrors) (status : Int)
    (hstatus : responseErrors.FirstStatus = some status)
    (hallowed : bodyAllowedForStatus status = true) :
    (∀ c', Error c responseErrors = Outcome.returned c' →
      ∃ errs, c'.Writer.body.bind Rendered.envelopeErrors = some errs ∧
        (errs ≠ [] ↔ responseErrors.Errors ≠ [])) ∧
    (responseErrors.Errors ≠ [] → 100 ≤ status → status ≤ 999 →
      ∃ c' errs, Error c responseErrors = Outcome.returned c' ∧
        c'.Writer.body.bind Rendered.envelopeErrors = some errs ∧ errs ≠ []) := by
  have hwritten : ∀ c', Error c responseErrors = Outcome.returned c' →
      c'.Writer.body.bind Rendered.envelopeErrors = some responseErrors.Errors := by
    intro c' hc'
    obtain ⟨status', hfs, _, _, hbody⟩ := Error_returned c c' responseErrors hc'
    rw [hstatus] at hfs
    injection hfs with hfs
    subst hfs
    rw [hbody hallowed]
    rfl
  constructor
  · intro c' hc'
    exact ⟨responseErrors.Errors, hwritten c' hc', Iff.rfl⟩
  · intro hne hlow hhigh
    obtain ⟨c', hc'⟩ := Error_returns c responseErrors status hstatus hlow hhigh
    exact ⟨c', responseErrors.Errors, hc', hwritten c' hc', hne⟩

/-! ## Lemmas on reading integers -/

/-- A digit character has the value of the digit it was made from. -/
theorem digitValue_digitChar (d : Nat) (h : d < 10) : digitValue (Nat.digitChar d) = some d := by
  interval_cases d <;> rfl

/-- Reading a concatenation reads the first part, then the second on top. -/
theorem parseDigitsFrom_append (xs ys : List Char) (acc : Nat) :
    parseDigitsFrom acc (xs ++ ys) = (parseDigitsFrom acc xs).bind (fun a => parseDigitsFrom a ys) := by
  induction xs generalizing acc with
  | nil => rfl
  | cons x xs ih =>
    simp only [List.cons_append, parseDigitsFrom]
    cases digitValue x with
    | none => rfl
    | some d => exact ih _

/-- The digits already produced stay behind the ones still to come. -/
theorem toDigitsCore_append (fuel n : Nat) (ds : List Char) :
    Nat.toDigitsCore 10 fuel n ds = Nat.toDigitsCore 10 fuel n [] ++ ds := by
  induction fuel generalizing n ds with
  | zero => simp [Nat.toDigitsCore]
  | succ fuel ih =>
    simp only [Nat.toDigitsCore]
    split
    · simp
    · rw [ih (n / 10) (Nat.digitChar (n % 10) :: ds), ih (n / 10) [Nat.digitChar (n % 10)]]
      simp

/-- Reading the decimal digits of `n` on top of `acc` shifts `acc` and adds
`n`. -/
theorem parseDigitsFrom_toDigitsCore (fuel : Nat) :
    ∀ n, n < fuel → ∀ acc, ∃ k,
      parseDigitsFrom acc (Nat.toDigitsCore 10 fuel n []) = some (acc * 10 ^ k + n) := by
  induction fuel with
  | zero => intro n hn; omega
  | succ fuel ih =>
    intro n hn acc
    simp only [Nat.toDigitsCore]
    split
    · rename_i h0
      refine ⟨1, ?_⟩
      have hlt : n < 10 := by omega
      have hmod : n % 10 = n := Nat.mod_eq_of_lt hlt
      simp [parseDigitsFrom, hmod, digitValue_digitChar n hlt]
    · rename_i h0
      have hlt : n / 10 < fuel := by omega
      obtain ⟨k, hk⟩ := ih (n / 10) hlt acc
      refine ⟨k + 1, ?_⟩
      rw [toDigitsCore_append, parseDigitsFrom_append, hk]
      simp only [Option.bind, parseDigitsFrom, digitValue_digitChar (n % 10) (Nat.mod_lt _ (by decide))]
      congr 1
      have := Nat.div_add_mod n 10
      rw [pow_succ]
      nlinarith [this]

/-- A number has at least one decimal digit. -/
theorem toDigits_ne_nil (n : Nat) : Nat.toDigits 10 n ≠ [] := by
  unfold Nat.toDigits
  simp only [Nat.toDigitsCore]
  split
  · simp
  · rw [toDigitsCore_append]; simp

/-- Reading the decimal digits of `n` gives `n` back. -/
theorem parseDigits_toDigits (n : Nat) : parseDigits (Nat.toDigits 10 n) = some n := by
  have hne := toDigits_ne_nil n
  obtain ⟨k, hk⟩ := parseDigitsFrom_toDigitsCore (n + 1) n (Nat.lt_succ_self n) 0
  unfold parseDigits
  split
  · rename_i h; exact absurd h hne
  · simpa [Nat.toDigits] using hk

/-- The decimal text of a negative integer reads as that integer. -/
theorem parseInt_toString_neg (i : Int) (hneg : i < 0) : parseInt (toString i) = some i := by
  cases i with
  | ofNat m => exact absurd hneg (by simp)
  | negSucc m =>
    have hs : (toString (Int.negSucc m)).toList = '-' :: Nat.toDigits 10 (m + 1) := rfl
    unfold parseInt
    rw [hs]
    simp [parseDigits_toDigits, Int.negSucc_eq]


/-- Only digit characters have a digit value. -/
theorem digitValue_eq_none (c : Char) : digitValue c = none ↔ c.isDigit = false := by
  unfold digitValue
  by_cases h : c.isDigit = true <;> simp [h]

/-- Reading digits fails exactly when some character is not a digit. -/
theorem parseDigitsFrom_eq_none (cs : List Char) :
    ∀ acc, parseDigitsFrom acc cs = none ↔ cs.all Char.isDigit = false := by
  induction cs with
  | nil => intro acc; simp [parseDigitsFrom]
  | cons c cs ih =>
    intro acc
    simp only [parseDigitsFrom, List.all_cons]
    cases hd : digitValue c with
    | none =>
      have := (digitValue_eq_none c).mp hd
      simp [this]
    | some d =>
      have hc : c.isDigit = true := by
        by_contra hne
        have := (digitValue_eq_none c).mpr (by simpa using hne)
        rw [this] at hd
        cases hd
      simp [hc, ih]

/-- Reading a run of digits fails exactly when it is empty or holds a character
that is not a digit. -/
theorem parseDigits_eq_none (cs : List Char) :
    parseDigits cs = none ↔ (!cs.isEmpty && cs.all Char.isDigit) = false := by
  cases cs with
  | nil => simp [parseDigits]
  | cons c cs =>
    simp only [parseDigits, parseDigitsFrom_eq_none]
    simp

/-- The parser fails exactly on the texts that are not base-10 integers. -/
theorem parseInt_eq_none (s : String) : parseInt s = none ↔ isDecimalInteger s = false := by
  unfold parseInt isDecimalInteger
  split
  · rename_i ds h
    rw [Option.map_eq_none', parseDigits_eq_none]
  · rename_i ds h
    rw [Option.map_eq_none', parseDigits_eq_none]
  · rename_i h1 h2
    rw [Option.map_eq_none', parseDigits_eq_none]

/-! ## The success writers -/

/-- C9: `OK` and `Created` write the same generic success body
`models.ResponseOK`; `OK` writes status 200 and `Created` status 201, the
responses differ in the status code only, and neither response depends on the
request. -/
theorem OK_Created_generic_success (c : Context) :
    (OK c).Writer.status = 200 ∧ (Created c).Writer.status = 201 ∧
    (OK c).Writer.body = some (Rendered.json Value.responseOK) ∧
    (Created c).Writer.body = some (Rendered.json Value.responseOK) ∧
    (Created c).Writer = { (OK c).Writer with status := 201 } ∧
    (∀ r : Request, (OK { c with Request := r }).Writer = (OK c).Writer ∧
      (Created { c with Request := r }).Writer = (Created c).Writer) :=
  ⟨rfl, rfl, rfl, rfl, rfl, fun _ => ⟨rfl, rfl⟩⟩

/-- C10: `OKReturn` writes status 200 with exactly the given value as the JSON
body, and `OKBytes` writes status 200 with content type
`application/octet-stream` and exactly the given bytes as the body. -/
theorem OKReturn_OKBytes_pass_through (c : Context) (response : Value) (bytes : List Byte) :
    (OKReturn c response).Writer.status = 200 ∧
    (OKReturn c response).Writer.body = some (Rendered.json response) ∧
    (OKBytes c bytes).Writer.status = 200 ∧
    (OKBytes c bytes).Writer.body =
      some (Rendered.data "application/octet-stream" bytes) :=
  ⟨rfl, rfl, rfl, rfl⟩

/-! ## The handlers -/

/-- `Error` on the single range error fails with status 400 and its title. -/
theorem Error_range_FailsWith (c : Context) :
    FailsWith (Error c InvalidInstancesRange.asErrors).context 400
      "instances param should be integer equal or greater than zero" :=
  ⟨rfl, InvalidInstancesRange, rfl, rfl, rfl⟩

/-- `Error` on the single format error fails with status 400 and its title. -/
theorem Error_format_FailsWith (c : Context) :
    FailsWith (Error c InvalidInstancesFormat.asErrors).context 400
      "instances param should be an integer" :=
  ⟨rfl, InvalidInstancesFormat, rfl, rfl, rfl⟩

/-- `Error` on the single format error writes the envelope of that one error. -/
theorem Error_format_body (c : Context) :
    (Error c InvalidInstancesFormat.asErrors).context.Writer.body.bind
      Rendered.envelopeErrors = some [InvalidInstancesFormat] := rfl

/-- A text that reads as a negative integer is a range error. -/
theorem parseInstances_negative (s : String) (i : Int) (hs : parseInt s = some i)
    (hneg : i < 0) : parseInstances s = InstancesResult.RangeError := by
  simp [parseInstances, hs, hneg]

/-- A text that is not a base-10 integer is a format error. -/
theorem parseInstances_not_integer (s : String) (hs : isDecimalInteger s = false) :
    parseInstances s = InstancesResult.FormatError := by
  simp [parseInstances, (parseInt_eq_none s).mpr hs]

/-- A text with a decimal point, a letter, or any other character that is
neither a digit nor a sign is not a base-10 integer. -/
theorem isDecimalInteger_false_of_nonnumeric (s : String) (ch : Char)
    (hmem : ch ∈ s.toList) (hdigit : ch.isDigit = false) (hminus : ch ≠ '-')
    (hplus : ch ≠ '+') : isDecimalInteger s = false := by
  unfold isDecimalInteger
  have key : ∀ ds : List Char, ch ∈ ds → (!ds.isEmpty && ds.all Char.isDigit) = false := by
    intro ds hds
    have : ds.all Char.isDigit = false := by
      rw [List.all_eq_false]
      exact ⟨ch, hds, by simp [hdigit]⟩
    simp [this]
  split
  · rename_i ds h
    rw [h] at hmem
    rcases List.mem_cons.mp hmem with h1 | h1
    · exact absurd h1 hminus
    · exact key ds h1
  · rename_i ds h
    rw [h] at hmem
    rcases List.mem_cons.mp hmem with h1 | h1
    · exact absurd h1 hplus
    · exact key ds h1
  · exact key _ hmem

/-- The record found for `(organization, name)` carries those two names. -/
theorem lookup_some_names (reg : Registry) (org name : String) (app : Application)
    (h : reg.lookup org name = some app) : app.organization = org ∧ app.name = name := by
  have := List.find?_some h
  simpa using this

/-- C5: for every negative integer `i`, given as its decimal text or as any
other text that reads as `i`, the PATCH instances update and the upload both
fail with status 400 and a first error of status 400 whose title is exactly
"instances param should be integer equal or greater than zero". -/
theorem negative_instances_rejected (i : Int) (hneg : i < 0) (s : String)
    (hs : s = toString i ∨ parseInt s = some i)
    (unpack : List Byte → Except String String) (reg : Registry) (c : Context)
    (org name : String) (archive : List Byte) :
    FailsWith (UpdateInstances reg c org name s).2 400
      "instances param should be integer equal or greater than zero" ∧
    FailsWith (Upload unpack reg c org name archive (some s)).2 400
      "instances param should be integer equal or greater than zero" := by
  have hparse : parseInt s = some i := by
    rcases hs with h | h
    · rw [h]; exact parseInt_toString_neg i hneg
    · exact h
  have hr := parseInstances_negative s i hparse hneg
  constructor
  · simp only [UpdateInstances, hr]
    exact Error_range_FailsWith c
  · simp only [Upload, requestedInstances, hr]
    exact Error_range_FailsWith c

/-- C5 at the text "-3" of the acceptance tests. -/
theorem negative_instances_rejected_witness :
    (-3 : Int) < 0 ∧ ("-3" = toString (-3 : Int) ∨ parseInt "-3" = some (-3)) ∧
    FailsWith (UpdateInstances { organizations := ["o1"], applications := [] }
      (Context.fresh "/api/v1/orgs/o1/applications/a1") "o1" "a1" "-3").2 400
      "instances param should be integer equal or greater than zero" ∧
    FailsWith (Upload (fun _ => Except.ok "content")
      { organizations := ["o1"], applications := [] }
      (Context.fresh "/api/v1/orgs/o1/applications/a1") "o1" "a1" [] (some "-3")).2 400
      "instances param should be integer equal or greater than zero" :=
  ⟨by decide, Or.inr (by decide),
    negative_instances_rejected (-3) (by decide) "-3" (Or.inr (by decide))
      (fun _ => Except.ok "content") { organizations := ["o1"], applications := [] }
      (Context.fresh "/api/v1/orgs/o1/applications/a1") "o1" "a1" []⟩

/-- C6: for every instances text that is not a base-10 integer (an optional
sign followed by one or more decimal digits), the upload fails with status 400
and a first error of status 400 whose title is exactly "instances param should
be an integer"; that error is the only one of the body, so no error of the
response carries the range-error title. -/
theorem non_integer_instances_rejected (s : String) (hs : isDecimalInteger s = false)
    (unpack : List Byte → Except String String) (reg : Registry) (c : Context)
    (org name : String) (archive : List Byte) :
    FailsWith (Upload unpack reg c org name archive (some s)).2 400
      "instances param should be an integer" ∧
    (∀ errs, (Upload unpack reg c org name archive (some s)).2.Writer.body.bind
        Rendered.envelopeErrors = some errs →
      errs.length = 1 ∧
      ∀ e ∈ errs, e.Title ≠ "instances param should be integer equal or greater than zero") := by
  have hr := parseInstances_not_integer s hs
  simp only [Upload, requestedInstances, hr]
  refine ⟨Error_format_FailsWith c, ?_⟩
  intro errs herrs
  rw [Error_format_body] at herrs
  injection herrs with herrs
  subst herrs
  refine ⟨rfl, ?_⟩
  intro e he
  rw [List.mem_singleton] at he
  subst he
  decide

/-- C6 at the text "3.14" of the acceptance tests. -/
theorem non_integer_instances_rejected_witness :
    isDecimalInteger "3.14" = false ∧
    FailsWith (Upload (fun _ => Except.ok "content")
      { organizations := ["o1"], applications := [] }
      (Context.fresh "/api/v1/orgs/o1/applications/testapp/store") "o1" "testapp" []
      (some "3.14")).2 400 "instances param should be an integer" :=
  ⟨by decide,
    (non_integer_instances_rejected "3.14" (by decide) (fun _ => Except.ok "content")
      { organizations := ["o1"], applications := [] }
      (Context.fresh "/api/v1/orgs/o1/applications/testapp/store") "o1" "testapp" []).1⟩

/-- C7: for every upload whose archive cannot be unpacked (the instances field
being, as in the scenario, absent or a non-negative integer), the response has
status 500 and an `Errors` sequence of exactly one entry whose `Details`
contains "failed to unpack", and the registry of application records is left
as it was. -/
theorem Upload_unpack_failure (unpack : List Byte → Except String String)
    (archive : List Byte) (cause : String) (hunpack : unpack archive = Except.error cause)
    (instances : Option String) (n : Nat)
    (hinst : requestedInstances instances = InstancesResult.Ok n)
    (reg : Registry) (c : Context) (org name : String) :
    (Upload unpack reg c org name archive instances).2.Writer.status = 500 ∧
    (∃ e, (Upload unpack reg c org name archive instances).2.Writer.body.bind
        Rendered.envelopeErrors = some [e] ∧
      stringsContains e.Details "failed to unpack") ∧
    (Upload unpack reg c org name archive instances).1 = reg := by
  have h : Upload unpack reg c org name archive instances =
      (reg, (Error c (UnpackError cause).asErrors).context) := by
    simp only [Upload, hinst, hunpack]
  rw [h]
  refine ⟨rfl, ⟨UnpackError cause, rfl, ?_⟩, rfl⟩
  show "failed to unpack".toList <:+: ("failed to unpack: " ++ cause).toList
  refine ⟨[], (": " ++ cause).toList, ?_⟩
  simp [String.toList, String.data_append]

/-- C7 at a corrupt archive uploaded with instances "1". -/
theorem Upload_unpack_failure_witness :
    (fun (_ : List Byte) => (Except.error "unexpected EOF" : Except String String)) [] =
      Except.error "unexpected EOF" ∧
    requestedInstances (some "1") = InstancesResult.Ok 1 ∧
    (Upload (fun _ => Except.error "unexpected EOF")
      { organizations := ["o1"], applications := [] }
      (Context.fresh "/api/v1/orgs/o1/applications/testapp/store") "o1" "testapp" []
      (some "1")).2.Writer.status = 500 :=
  ⟨rfl, by decide,
    (Upload_unpack_failure (fun _ => Except.error "unexpected EOF") [] "unexpected EOF" rfl
      (some "1") 1 (by decide) { organizations := ["o1"], applications := [] }
      (Context.fresh "/api/v1/orgs/o1/applications/testapp/store") "o1" "testapp").1⟩

/-- C8: for every delete that succeeds (the organization exists and the
application is found), the response has status 200 and its body is an object
with exactly one key, `UnboundServices`, also when no service was bound; the
value under that key contains the name of every service that was bound to the
application and detached. -/
theorem Delete_reports_unbound (detach : String → String → String → Bool)
    (reg : Registry) (c : Context) (org name : String) (app : Application)
    (horg : reg.organizations.contains org = true)
    (happ : reg.lookup org name = some app) :
    (Delete detach reg c org name).2.Writer.status = 200 ∧
    (Delete detach reg c org name).2.Writer.body.bind Rendered.objectKeys =
      some ["UnboundServices"] ∧
    ∃ names, (Delete detach reg c org name).2.Writer.body.bind
        (Rendered.stringsAt "UnboundServices") = some names ∧
      (∀ service ∈ app.boundServices, detach org name service = true → service ∈ names) ∧
      (app.boundServices = [] → names = []) := by
  obtain ⟨ho, hn⟩ := lookup_some_names reg org name app happ
  simp only [Delete, horg, happ]
  refine ⟨rfl, rfl, UnbindAll detach app, ?_, ?_, ?_⟩
  · rfl
  · intro service hmem hdetach
    simp only [UnbindAll, List.mem_filter]
    exact ⟨hmem, by rw [ho, hn]; exact hdetach⟩
  · intro hnil
    simp [UnbindAll, hnil]

/-- C8 at an application with one bound service. -/
theorem Delete_reports_unbound_witness :
    ({ organizations := ["o1"],
       applications := [{ name := "a1", organization := "o1", desiredInstances := 1,
                          route := "", sourceURL := "", sourceRevision := "",
                          imageReference := "", boundServices := ["db"] }] } :
      Registry).organizations.contains "o1" = true ∧
    (Delete (fun _ _ _ => true)
      { organizations := ["o1"],
        applications := [{ name := "a1", organization := "o1", desiredInstances := 1,
                           route := "", sourceURL := "", sourceRevision := "",
                           imageReference := "", boundServices := ["db"] }] }
      (Context.fresh "/api/v1/orgs/o1/applications/a1") "o1" "a1").2.Writer.status = 200 :=
  ⟨by decide,
    (Delete_reports_unbound (fun _ _ _ => true)
      { organizations := ["o1"],
        applications := [{ name := "a1", organization := "o1", desiredInstances := 1,
                           route := "", sourceURL := "", sourceRevision := "",
                           imageReference := "", boundServices := ["db"] }] }
      (Context.fresh "/api/v1/orgs/o1/applications/a1") "o1" "a1"
      { name := "a1", organization := "o1", desiredInstances := 1,
        route := "", sourceURL := "", sourceRevision := "",
        imageReference := "", boundServices := ["db"] }
      (by decide) (by decide)).1⟩

/-! ## The error writer on a concrete collection -/

/-- C2 at the range error of the handlers: the response went out with the
header. -/
theorem Error_sets_nosniff_witness :
    ∃ sent, (Error (Context.fresh "/api/v1/orgs/o1/applications/a1")
        InvalidInstancesRange.asErrors).context.Writer.sentHeader = some sent ∧
      headerValue sent "X-Content-Type-Options" = some "nosniff" :=
  (Error_sets_nosniff (Context.fresh "/api/v1/orgs/o1/applications/a1")
    InvalidInstancesRange.asErrors).1 _ rfl

/-- C3, amended, at a collection of two errors with first status 400. -/
theorem Error_body_is_envelope_witness :
    ∃ c', Error (Context.fresh "/api/v1/orgs/o1/applications/a1")
      { Errors := [InvalidInstancesFormat, InvalidInstancesRange],
        FirstStatus := some 400 } = Outcome.returned c' :=
  (Error_body_is_envelope (Context.fresh "/api/v1/orgs/o1/applications/a1")
    { Errors := [InvalidInstancesFormat, InvalidInstancesRange],
      FirstStatus := some 400 } 400 rfl (by decide)).2 (by decide) (by decide)

/-- C4, amended, at the collection of one unpack error, status 500. -/
theorem Error_body_errors_nonempty_witness :
    ∃ c' errs, Error (Context.fresh "/api/v1/orgs/o1/applications/testapp/store")
        (UnpackError "unexpected EOF").asErrors = Outcome.returned c' ∧
      c'.Writer.body.bind Rendered.envelopeErrors = some errs ∧ errs ≠ [] :=
  (Error_body_errors_nonempty (Context.fresh "/api/v1/orgs/o1/applications/testapp/store")
    (UnpackError "unexpected EOF").asErrors 500 rfl (by decide)).2
    (by simp [APIError.asErrors]) (by decide) (by decide)

/-! ## The error list of the context -/

/-- One turn of the loop of `Error` appends one private entry, the wrapped
error, to `c.Errors`. -/
theorem addError_Errors (c : Context) (err : APIError) :
    (Error.addError c err).Errors =
      c.Errors ++ [{ Err := GoError.api err, Kind := ErrorType.ErrorTypePrivate }] := rfl

/-- The loop of `Error` appends one private entry for each error, in order. -/
theorem foldl_addError_Errors (errs : List APIError) :
    ∀ c : Context, (errs.foldl Error.addError c).Errors =
      c.Errors ++ errs.map (fun err =>
        ({ Err := GoError.api err, Kind := ErrorType.ErrorTypePrivate } : GinError)) := by
  induction errs with
  | nil => intro c; simp
  | cons err rest ih =>
    intro c
    rw [List.foldl_cons, ih, addError_Errors]
    simp

/-- Setting a header leaves `c.Errors` alone. -/
theorem Context.Header_Errors (c : Context) (key value : String) :
    (c.Header key value).Errors = c.Errors := by
  unfold Context.Header
  split <;> rfl

/-- Rendering JSON leaves `c.Errors` alone, however the call ends. -/
theorem Context.JSON_Errors (c : Context) (code : Int) (obj : Value) :
    (c.JSON code obj).context.Errors = c.Errors :=
  Context.Render_context_Errors c code (Rendered.json obj)

/-- C11: for every error collection, the error list of the context after
`Error` (whether the call returned or not) is the list before the call
followed by one private entry for each error of the collection, in the
collection's order; so it is longer by the number of errors, and the entries
recorded before the call are its unchanged first part. -/
theorem Error_extends_context_errors (c : Context) (responseErrors : APIErrors) :
    (Error c responseErrors).context.Errors =
      c.Errors ++ responseErrors.Errors.map (fun err =>
        ({ Err := GoError.api err, Kind := ErrorType.ErrorTypePrivate } : GinError)) ∧
    (∀ c', Error c responseErrors = Outcome.returned c' →
      c'.Errors = c.Errors ++ responseErrors.Errors.map (fun err =>
        ({ Err := GoError.api err, Kind := ErrorType.ErrorTypePrivate } : GinError))) ∧
    (Error c responseErrors).context.Errors.length =
      c.Errors.length + responseErrors.Errors.length ∧
    (Error c responseErrors).context.Errors.take c.Errors.length = c.Errors ∧
    ((Error c responseErrors).context.Errors.drop c.Errors.length).map GinError.Err =
      responseErrors.Errors.map GoError.api := by
  have key : (Error c responseErrors).context.Errors =
      c.Errors ++ responseErrors.Errors.map (fun err =>
        ({ Err := GoError.api err, Kind := ErrorType.ErrorTypePrivate } : GinError)) := by
    rw [Error_eq]
    cases responseErrors.FirstStatus with
    | none =>
      simp only [Outcome.context, Context.Header_Errors, foldl_addError_Errors,
        Context.logInfo_Errors]
    | some status =>
      simp only [Context.Render_context_Errors, Context.Header_Errors,
        foldl_addError_Errors, Context.logInfo_Errors]
  refine ⟨key, ?_, ?_, ?_, ?_⟩
  · intro c' hc'
    rw [hc'] at key
    exact key
  · rw [key]; simp
  · rw [key]; simp
  · rw [key]; simp

/-- C11 at a context that already holds one entry and a collection of two
errors. -/
theorem Error_extends_context_errors_witness :
    (Error
      { Context.fresh "/api/v1/orgs/o1/applications/a1" with
        Errors := [{ Err := GoError.other "earlier", Kind := ErrorType.ErrorTypePublic }] }
      { Errors := [InvalidInstancesFormat, InvalidInstancesRange],
        FirstStatus := some 400 }).context.Errors =
      [{ Err := GoError.other "earlier", Kind := ErrorType.ErrorTypePublic },
       { Err := GoError.api InvalidInstancesFormat, Kind := ErrorType.ErrorTypePrivate },
       { Err := GoError.api InvalidInstancesRange, Kind := ErrorType.ErrorTypePrivate }] :=
  (Error_extends_context_errors
    { Context.fresh "/api/v1/orgs/o1/applications/a1" with
      Errors := [{ Err := GoError.other "earlier", Kind := ErrorType.ErrorTypePublic }] }
    { Errors := [InvalidInstancesFormat, InvalidInstancesRange],
      FirstStatus := some 400 }).1

end Epinio
